import Mathlib

/-!
Shallow embedding of `src/main.c` of pico_usb_adc: a RP2040 firmware that
bridges the on-chip ADC and USB CDC interfaces.  Byte buffers are `List Nat`
(one entry per `uint8_t` cell), buffer indices are `Nat`.  The TinyUSB
transport and the SDK mutexes are external collaborators: each call models
their observable behaviour through explicit inputs (pending transport bytes,
transport write-FIFO space, the success of `mutex_try_enter`).

All counters in the C code are `uint32_t`.  Under the invariant
`pos ≤ BUFFER_SIZE` (established below, claim C4) none of the subtractions
`BUFFER_SIZE - pos`, `uart_pos - count` can wrap, so plain `Nat` arithmetic
(with truncated subtraction) coincides with the machine arithmetic on every
reachable state.
-/

namespace PicoUsbAdc

/-- Constant `BUFFER_SIZE` from `#define BUFFER_SIZE 2560` (main.c line 29). -/
def BUFFER_SIZE : Nat := 2560

/-- Constant `N_SAMPLES` from `#define N_SAMPLES 500` (main.c line 43). -/
def N_SAMPLES : Nat := 500

/-- Constant `CLOCK_DIV` from `#define CLOCK_DIV 240` (main.c line 37). -/
def CLOCK_DIV : Nat := 240

/-- Constant `CAPTURE_CHANNEL` from `#define CAPTURE_CHANNEL 0` (main.c line 41). -/
def CAPTURE_CHANNEL : Nat := 0

/-- The macro `MIN(a, b) ((a > b) ? b : a)` (main.c line 24). -/
def MIN (a b : Nat) : Nat := if a > b then b else a

/-- Overwrite `buf[off .. off+src.length-1]` with `src`, leaving the rest of
the array alone: the effect of the C library copying `src.length` bytes into
`&buf[off]` (as `tud_cdc_n_read` does into `&ud->usb_buffer[ud->usb_pos]`). -/
def writeAt (buf : List Nat) (off : Nat) (src : List Nat) : List Nat :=
  buf.take off ++ src ++ buf.drop (off + src.length)

/-- Effect of `memmove(buf, &buf[count], pos - count)` (main.c lines 111-112):
the `pos - count` bytes starting at `count` move to offset 0; cells at index
`≥ pos - count` keep their old contents. -/
def memmoveFront (buf : List Nat) (count pos : Nat) : List Nat :=
  (buf.drop count).take (pos - count) ++ buf.drop (pos - count)

/-- Result of one fill pass over a single buffer/length pair.  `requested`
is the byte count passed to `tud_cdc_n_read` (0 when the call is skipped);
`count` is the value `tud_cdc_n_read` returned, i.e. the bytes appended. -/
structure FillResult where
  buf : List Nat
  pos : Nat
  requested : Nat
  count : Nat
  deriving Repr, DecidableEq

/-- Result of one drain pass over a single buffer/length pair.  `offered` is
the byte range handed to `tud_cdc_n_write`; `count` is the number of bytes the
transport accepted; `flushed` records whether `tud_cdc_n_write_flush` ran. -/
structure DrainResult where
  buf : List Nat
  pos : Nat
  offered : List Nat
  count : Nat
  flushed : Bool
  deriving Repr, DecidableEq

/-- Body of `usb_read_bytes` (main.c lines 77-98) acting on one
buffer/length pair (`ud->usb_buffer`, `ud->usb_pos`), the spec's `try_fill`.
`incoming` is the transport's pending host→device byte queue, so
`tud_cdc_n_available` is `incoming.length` and `tud_cdc_n_read` with argument
`len` returns the first `min len incoming.length` pending bytes.  `mtxFree`
is the outcome of `mutex_try_enter(&ud->usb_mtx, NULL)`. -/
def buf_fill (cap : Nat) (incoming : List Nat) (mtxFree : Bool)
    (buf : List Nat) (pos : Nat) : FillResult :=
  let len := incoming.length
  if len ≠ 0 ∧ mtxFree = true then
    let len := MIN len (cap - pos)
    if len ≠ 0 then
      let delivered := incoming.take len
      let count := delivered.length
      { buf := writeAt buf pos delivered, pos := pos + count
        requested := len, count := count }
    else
      { buf := buf, pos := pos, requested := 0, count := 0 }
  else
    { buf := buf, pos := pos, requested := 0, count := 0 }

/-- Body of `usb_write_bytes` (main.c lines 100-120) acting on one
buffer/length pair (`ud->uart_buffer`, `ud->uart_pos`), the spec's
`try_drain`.  `writeAvail` is the free space of the transport's write FIFO:
`tud_cdc_n_write(itf, buf, pos)` queues `min pos writeAvail` bytes and
returns that count.  `mtxFree` is the outcome of
`mutex_try_enter(&ud->uart_mtx, NULL)`. -/
def buf_drain (writeAvail : Nat) (mtxFree : Bool)
    (buf : List Nat) (pos : Nat) : DrainResult :=
  if pos ≠ 0 ∧ mtxFree = true then
    let count := min pos writeAvail
    let buf1 := if count < pos then memmoveFront buf count pos else buf
    { buf := buf1, pos := pos - count, offered := buf.take pos
      count := count, flushed := count != 0 }
  else
    { buf := buf, pos := pos, offered := [], count := 0, flushed := false }

/-- Per-interface record `uart_data_t` (main.c lines 48-59), restricted to
the fields the modelled routines touch.  The two `mutex_t` objects appear as
the `mtxFree` outcome inputs of each operation (a try-lock is acquired and
released within a single call), and the line-coding fields are not read or
written by any modelled routine. -/
structure uart_data_t where
  uart_buffer : List Nat
  uart_pos : Nat
  usb_buffer : List Nat
  usb_pos : Nat
  deriving Repr, DecidableEq

/-- Result of `usb_read_bytes` on the whole interface record. -/
structure ReadBytesResult where
  ud : uart_data_t
  requested : Nat
  count : Nat
  deriving Repr, DecidableEq

/-- Result of `usb_write_bytes` on the whole interface record. -/
structure WriteBytesResult where
  ud : uart_data_t
  offered : List Nat
  count : Nat
  flushed : Bool
  deriving Repr, DecidableEq

/-- Function `usb_read_bytes` (main.c lines 77-98): fill the host→device buffer
(`usb_buffer`/`usb_pos`) from the USB transport. -/
def usb_read_bytes (incoming : List Nat) (mtxFree : Bool)
    (ud : uart_data_t) : ReadBytesResult :=
  let r := buf_fill BUFFER_SIZE incoming mtxFree ud.usb_buffer ud.usb_pos
  { ud := { ud with usb_buffer := r.buf, usb_pos := r.pos }
    requested := r.requested, count := r.count }

/-- Function `usb_write_bytes` (main.c lines 100-120): drain the device→host buffer
(`uart_buffer`/`uart_pos`) into the USB transport, flushing when at least one
byte was accepted. -/
def usb_write_bytes (writeAvail : Nat) (mtxFree : Bool)
    (ud : uart_data_t) : WriteBytesResult :=
  let r := buf_drain writeAvail mtxFree ud.uart_buffer ud.uart_pos
  { ud := { ud with uart_buffer := r.buf, uart_pos := r.pos }
    offered := r.offered, count := r.count, flushed := r.flushed }

/-- Result of one `usb_cdc_process` pass. -/
structure ProcessResult where
  ud : uart_data_t
  readRequested : Nat
  readCount : Nat
  writeOffered : List Nat
  writeCount : Nat
  flushed : Bool
  deriving Repr, DecidableEq

/-- Function `usb_cdc_process` (main.c lines 122-126): `usb_read_bytes(itf)` then
`usb_write_bytes(itf)`. -/
def usb_cdc_process (incoming : List Nat) (writeAvail : Nat)
    (usbMtxFree uartMtxFree : Bool) (ud : uart_data_t) : ProcessResult :=
  let r := usb_read_bytes incoming usbMtxFree ud
  let w := usb_write_bytes writeAvail uartMtxFree r.ud
  { ud := w.ud, readRequested := r.requested, readCount := r.count
    writeOffered := w.offered, writeCount := w.count, flushed := w.flushed }

/-- Transfer unit size of a DMA channel (`dma_channel_transfer_size`). -/
inductive DmaSize where
  | size8
  | size16
  | size32
  deriving Repr, DecidableEq

/-- Fields of the SDK's `dma_channel_config` that the firmware sets: unit
size, address-increment flags and the pacing DREQ. -/
structure dma_channel_config where
  transfer_data_size : DmaSize
  read_increment : Bool
  write_increment : Bool
  dreq : Nat
  deriving Repr, DecidableEq

/-- DREQ number of the ADC on the RP2040 (`DREQ_ADC`). -/
def DREQ_ADC : Nat := 36

/-- DREQ number meaning an unpaced, free-running channel (`DREQ_FORCE`),
the SDK default. -/
def DREQ_FORCE : Nat := 63

/-- SDK `dma_channel_get_default_config(channel)`: incrementing read address,
fixed write address, 32-bit transfers, unpaced. -/
def dma_channel_get_default_config (_chan : Nat) : dma_channel_config :=
  { transfer_data_size := .size32, read_increment := true
    write_increment := false, dreq := DREQ_FORCE }

/-- SDK `channel_config_set_transfer_data_size(&c, size)`. -/
def channel_config_set_transfer_data_size (c : dma_channel_config)
    (size : DmaSize) : dma_channel_config :=
  { c with transfer_data_size := size }

/-- SDK `channel_config_set_read_increment(&c, incr)`. -/
def channel_config_set_read_increment (c : dma_channel_config)
    (incr : Bool) : dma_channel_config :=
  { c with read_increment := incr }

/-- SDK `channel_config_set_write_increment(&c, incr)`. -/
def channel_config_set_write_increment (c : dma_channel_config)
    (incr : Bool) : dma_channel_config :=
  { c with write_increment := incr }

/-- SDK `channel_config_set_dreq(&c, dreq)`. -/
def channel_config_set_dreq (c : dma_channel_config)
    (dreq : Nat) : dma_channel_config :=
  { c with dreq := dreq }

/-- File-scope mutable globals of main.c lines 46-47: `dma_channel_config
cfg; uint dma_chan;`. -/
structure Globals where
  cfg : dma_channel_config
  dma_chan : Nat
  deriving Repr, DecidableEq

/-- C file-scope objects are zero-initialised before `main` runs: channel
number 0 and an all-zero control word (8-bit size is encoding 0, both
increments off, TREQ_SEL 0). -/
def initialGlobals : Globals :=
  { cfg := { transfer_data_size := .size8, read_increment := false
             write_increment := false, dreq := 0 }
    dma_chan := 0 }

/-- Addresses that appear in the `dma_channel_configure` call of `sample`. -/
inductive Addr where
  | capture_buf
  | adc_fifo
  deriving Repr, DecidableEq

/-- Observable peripheral actions of the capture/publish path, in program
order.  `gpio_put v` is `gpio_put(LED_PIN, v)`; `cdc_write itf bytes` is
`tud_cdc_n_write(itf, bytes, bytes.length)`. -/
inductive Event where
  | adc_fifo_drain
  | adc_run (running : Bool)
  | dma_channel_configure (chan : Nat) (c : dma_channel_config)
      (dst src : Addr) (count : Nat) (start : Bool)
  | gpio_put (value : Bool)
  | dma_wait (chan : Nat)
  | cdc_write (itf : Nat) (bytes : List Nat)
  | cdc_write_flush (itf : Nat)
  deriving Repr, DecidableEq

/-- Function `setup()` (main.c lines 187-227) restricted to the state the capture
claims depend on: the globals `cfg` and `dma_chan`.  `claimedChan` is the
channel number `dma_claim_unused_channel(true)` hands out.  Line 212 reads
`uint dma_chan = dma_claim_unused_channel(true);`: the `uint` declarator
introduces a NEW local variable that shadows the file-scope `dma_chan`, so
the claimed number only feeds the local uses on lines 212-213 and the
file-scope `dma_chan` is never assigned.  The ADC/GPIO initialisation calls
of `setup` touch no modelled state. -/
def setup (claimedChan : Nat) (g : Globals) : Globals :=
  let dma_chan_local := claimedChan
  let cfg := dma_channel_get_default_config dma_chan_local
  let cfg := channel_config_set_transfer_data_size cfg .size8
  let cfg := channel_config_set_read_increment cfg false
  let cfg := channel_config_set_write_increment cfg true
  let cfg := channel_config_set_dreq cfg DREQ_ADC
  { g with cfg := cfg }

/-- Function `sample(capture_buf)` (main.c lines 169-185).  `adcStream` is the
sequence of 8-bit conversion results the free-running ADC pushes into its
FIFO after `adc_run(true)`; the DMA channel, paced by one DREQ per
conversion, copies one byte per conversion to incrementing addresses of
`capture_buf` and raises its finished flag after `N_SAMPLES` transfers.
`dma_channel_wait_for_finish_blocking` has no timeout: when fewer than
`N_SAMPLES` conversions ever arrive the wait never returns, modelled as
`none`.  On completion the result is the trace of peripheral actions in
program order and the final contents of `capture_buf`. -/
def sample (g : Globals) (adcStream : List Nat)
    (capture_buf : List Nat) : Option (List Event × List Nat) :=
  if N_SAMPLES ≤ adcStream.length then
    some ([Event.adc_fifo_drain, Event.adc_run false,
           Event.dma_channel_configure g.dma_chan g.cfg
             Addr.capture_buf Addr.adc_fifo N_SAMPLES true,
           Event.gpio_put true, Event.adc_run true,
           Event.dma_wait g.dma_chan, Event.gpio_put false],
          writeAt capture_buf 0 (adcStream.take N_SAMPLES))
  else
    none

/-- Body of the `while (1)` loop of `main` (main.c lines 250-260).
`connected` is `tud_cdc_n_connected(0)`; `uartData` is the `UART_DATA` table
(the Channel Buffers), carried through to record that this path never
touches it.  `none` means the iteration never finishes because `sample`
blocked forever.  `sizeof(sample_buf)` is `N_SAMPLES`, so the write hands
the whole sample buffer to interface 0. -/
def main_loop_body (connected : Bool) (g : Globals) (adcStream : List Nat)
    (sample_buf : List Nat) (uartData : List uart_data_t) :
    Option (List Event × List Nat × List uart_data_t) :=
  if connected then
    match sample g adcStream sample_buf with
    | some (tr, buf1) =>
        some (tr ++ [Event.cdc_write 0 buf1, Event.cdc_write_flush 0],
              buf1, uartData)
    | none => none
  else
    some ([], sample_buf, uartData)

/-- One non-blocking operation on a single Channel Buffer direction, with
the environment inputs it depends on: the transport bytes pending (for a
fill), the transport write-FIFO space (for a drain), and whether the
buffer's `mutex_try_enter` succeeds. -/
inductive BufOp where
  | fill (incoming : List Nat) (mtxFree : Bool)
  | drain (writeAvail : Nat) (mtxFree : Bool)
  deriving Repr, DecidableEq

/-- Apply one `BufOp` to a buffer/length pair via the embedded bodies of
`usb_read_bytes` / `usb_write_bytes`. -/
def applyOp (cap : Nat) (st : List Nat × Nat) : BufOp → List Nat × Nat
  | .fill incoming m =>
      let r := buf_fill cap incoming m st.1 st.2
      (r.buf, r.pos)
  | .drain writeAvail m =>
      let r := buf_drain writeAvail m st.1 st.2
      (r.buf, r.pos)

/-- Apply a sequence of buffer operations in order. -/
def applyOps (cap : Nat) (st : List Nat × Nat) (ops : List BufOp) :
    List Nat × Nat :=
  ops.foldl (applyOp cap) st

/-- Channel Buffer representation invariant: the length counter stays within
`[0, capacity]` and the backing array keeps its allocated size, so the valid
data region (the first `length` cells) always lies inside the array. -/
def BufInv (cap : Nat) (st : List Nat × Nat) : Prop :=
  st.2 ≤ cap ∧ st.1.length = cap

instance (cap : Nat) (st : List Nat × Nat) : Decidable (BufInv cap st) :=
  inferInstanceAs (Decidable (_ ∧ _))

/-! Helper lemmas about the array-effect functions. -/

theorem MIN_le_left (a b : Nat) : MIN a b ≤ a := by
  unfold MIN; split <;> omega

theorem MIN_le_right (a b : Nat) : MIN a b ≤ b := by
  unfold MIN; split <;> omega

theorem MIN_eq_min (a b : Nat) : MIN a b = min a b := by
  unfold MIN; split <;> omega

theorem writeAt_length (buf src : List Nat) (off : Nat)
    (h : off + src.length ≤ buf.length) :
    (writeAt buf off src).length = buf.length := by
  simp only [writeAt, List.length_append, List.length_take, List.length_drop]
  omega

theorem writeAt_take (buf src : List Nat) (off : Nat)
    (h : off ≤ buf.length) :
    (writeAt buf off src).take (off + src.length) = buf.take off ++ src := by
  unfold writeAt
  refine List.take_left' ?_
  simp only [List.length_append, List.length_take]
  omega

theorem memmoveFront_length (buf : List Nat) (count pos : Nat)
    (hc : count ≤ pos) (hp : pos ≤ buf.length) :
    (memmoveFront buf count pos).length = buf.length := by
  simp only [memmoveFront, List.length_append, List.length_take,
    List.length_drop]
  omega

theorem memmoveFront_take (buf : List Nat) (count pos : Nat)
    (hc : count ≤ pos) (hp : pos ≤ buf.length) :
    (memmoveFront buf count pos).take (pos - count) =
      (buf.drop count).take (pos - count) := by
  unfold memmoveFront
  refine List.take_left' ?_
  simp only [List.length_take, List.length_drop]
  omega

theorem buf_fill_spec (cap : Nat) (incoming buf : List Nat) (pos : Nat)
    (hpos : pos ≤ cap) (hbuf : buf.length = cap) :
    (buf_fill cap incoming true buf pos).requested =
      MIN incoming.length (cap - pos) ∧
    (buf_fill cap incoming true buf pos).requested ≤ cap - pos ∧
    (buf_fill cap incoming true buf pos).count =
      (buf_fill cap incoming true buf pos).requested ∧
    (buf_fill cap incoming true buf pos).pos =
      pos + (buf_fill cap incoming true buf pos).count ∧
    (buf_fill cap incoming true buf pos).buf.take
        (buf_fill cap incoming true buf pos).pos =
      buf.take pos ++ incoming.take (buf_fill cap incoming true buf pos).count ∧
    (buf_fill cap incoming true buf pos).buf.length = cap := by
  simp only [buf_fill]
  by_cases h0 : incoming.length = 0
  · simp [h0, MIN, hbuf]
  · rw [if_pos (⟨h0, trivial⟩ : incoming.length ≠ 0 ∧ True)]
    by_cases hlen : MIN incoming.length (cap - pos) = 0
    · rw [if_neg (by omega)]
      simp [hlen, hbuf]
    · have hle : MIN incoming.length (cap - pos) ≤ incoming.length :=
        MIN_le_left _ _
      have hcap : MIN incoming.length (cap - pos) ≤ cap - pos :=
        MIN_le_right _ _
      have hcnt : (incoming.take (MIN incoming.length (cap - pos))).length =
          MIN incoming.length (cap - pos) := by
        rw [List.length_take]
        exact Nat.min_eq_left hle
      rw [if_pos hlen]
      refine ⟨rfl, hcap, hcnt, rfl, ?_, ?_⟩
      · rw [writeAt_take buf _ pos (by omega), hcnt]
      · rw [writeAt_length buf _ pos (by rw [hcnt]; omega), hbuf]

theorem buf_drain_spec (writeAvail : Nat) (buf : List Nat) (pos : Nat)
    (hpos : pos ≤ buf.length) :
    (buf_drain writeAvail true buf pos).count = min pos writeAvail ∧
    (buf_drain writeAvail true buf pos).pos = pos - min pos writeAvail ∧
    (buf_drain writeAvail true buf pos).buf.take (pos - min pos writeAvail) =
      (buf.take pos).drop (min pos writeAvail) ∧
    (buf_drain writeAvail true buf pos).buf.length = buf.length ∧
    (buf_drain writeAvail true buf pos).offered = buf.take pos := by
  simp only [buf_drain]
  by_cases h0 : pos = 0
  · rw [if_neg (by simp [h0])]
    simp [h0]
  · rw [if_pos (⟨h0, trivial⟩ : pos ≠ 0 ∧ True)]
    have hc : min pos writeAvail ≤ pos := Nat.min_le_left _ _
    by_cases hlt : min pos writeAvail < pos
    · rw [if_pos hlt]
      refine ⟨rfl, rfl, ?_, memmoveFront_length buf _ pos hc hpos, rfl⟩
      rw [memmoveFront_take buf _ pos hc hpos, List.drop_take]
    · have heq : min pos writeAvail = pos := by omega
      rw [if_neg hlt]
      refine ⟨rfl, rfl, ?_, rfl, rfl⟩
      rw [heq, List.drop_take]
      simp

theorem buf_fill_inv (cap : Nat) (incoming : List Nat) (m : Bool)
    (buf : List Nat) (pos : Nat) (hpos : pos ≤ cap) (hbuf : buf.length = cap) :
    (buf_fill cap incoming m buf pos).pos ≤ cap ∧
    (buf_fill cap incoming m buf pos).buf.length = cap := by
  cases m
  · have : ¬ (incoming.length ≠ 0 ∧ (false : Bool) = true) := by simp
    simp only [buf_fill, this, if_false]
    exact ⟨hpos, hbuf⟩
  · obtain ⟨_, h2, h3, h4, _, h6⟩ := buf_fill_spec cap incoming buf pos hpos hbuf
    refine ⟨?_, h6⟩
    omega

theorem buf_drain_inv (cap writeAvail : Nat) (m : Bool)
    (buf : List Nat) (pos : Nat) (hpos : pos ≤ cap) (hbuf : buf.length = cap) :
    (buf_drain writeAvail m buf pos).pos ≤ cap ∧
    (buf_drain writeAvail m buf pos).buf.length = cap := by
  cases m
  · have : ¬ (pos ≠ 0 ∧ (false : Bool) = true) := by simp
    simp only [buf_drain, this, if_false]
    exact ⟨hpos, hbuf⟩
  · obtain ⟨h1, h2, _, h4, _⟩ := buf_drain_spec writeAvail buf pos (by omega)
    refine ⟨?_, by rw [h4, hbuf]⟩
    omega

theorem buf_drain_offered_le (writeAvail : Nat) (m : Bool)
    (buf : List Nat) (pos : Nat) :
    ((buf_drain writeAvail m buf pos).offered).length ≤ pos := by
  simp only [buf_drain]
  split
  · simp only [List.length_take]
    exact Nat.min_le_left _ _
  · simp

/-- C5: when `mutex_try_enter` fails (the guard is already held), both
`usb_read_bytes` and `usb_write_bytes` return at once having moved zero
bytes, requested nothing from the transport, flushed nothing, and left the
interface record (both buffers and both lengths) unchanged. -/
theorem guard_held_skips_pass (incoming : List Nat) (writeAvail : Nat)
    (ud : uart_data_t) :
    usb_read_bytes incoming false ud = { ud := ud, requested := 0, count := 0 } ∧
    usb_write_bytes writeAvail false ud =
      { ud := ud, offered := [], count := 0, flushed := false } := by
  constructor
  · simp [usb_read_bytes, buf_fill]
  · simp [usb_write_bytes, buf_drain]

/-- C1: a fill pass that acquires the guard requests exactly
`MIN available (capacity - pos)` bytes from the transport (never more than
the remaining capacity), appends the delivered bytes at offset `pos`, and
advances the length by exactly the delivered count.  With `available = 10`
bytes pending, an empty buffer of capacity 8 accepts exactly 8 bytes
(see the witness). -/
theorem try_fill_requests_min_appends_delivered (cap : Nat)
    (incoming buf : List Nat) (pos : Nat) (r : FillResult)
    (hr : r = buf_fill cap incoming true buf pos)
    (hpos : pos ≤ cap) (hbuf : buf.length = cap) :
    r.requested = MIN incoming.length (cap - pos) ∧
    r.requested ≤ cap - pos ∧
    r.count = r.requested ∧
    r.pos = pos + r.count ∧
    r.buf.take r.pos = buf.take pos ++ incoming.take r.count ∧
    r.buf.length = cap := by
  subst hr
  exact buf_fill_spec cap incoming buf pos hpos hbuf

/-- Witness for C1 at the spec's scenario: capacity 8, empty buffer, an
offer of 10 pending bytes.  The pass requests exactly 8 bytes, appends the
8 delivered bytes at offset 0 and leaves the length at 8. -/
theorem try_fill_requests_min_appends_delivered_witness :
    (buf_fill 8 [1, 2, 3, 4, 5, 6, 7, 8, 9, 10] true
        [0, 0, 0, 0, 0, 0, 0, 0] 0 =
      buf_fill 8 [1, 2, 3, 4, 5, 6, 7, 8, 9, 10] true
        [0, 0, 0, 0, 0, 0, 0, 0] 0) ∧
    (0 : Nat) ≤ 8 ∧
    ([0, 0, 0, 0, 0, 0, 0, 0] : List Nat).length = 8 ∧
    ((buf_fill 8 [1, 2, 3, 4, 5, 6, 7, 8, 9, 10] true
        [0, 0, 0, 0, 0, 0, 0, 0] 0).requested =
        MIN ([1, 2, 3, 4, 5, 6, 7, 8, 9, 10] : List Nat).length (8 - 0) ∧
      (buf_fill 8 [1, 2, 3, 4, 5, 6, 7, 8, 9, 10] true
        [0, 0, 0, 0, 0, 0, 0, 0] 0).requested ≤ 8 - 0 ∧
      (buf_fill 8 [1, 2, 3, 4, 5, 6, 7, 8, 9, 10] true
        [0, 0, 0, 0, 0, 0, 0, 0] 0).count =
        (buf_fill 8 [1, 2, 3, 4, 5, 6, 7, 8, 9, 10] true
          [0, 0, 0, 0, 0, 0, 0, 0] 0).requested ∧
      (buf_fill 8 [1, 2, 3, 4, 5, 6, 7, 8, 9, 10] true
        [0, 0, 0, 0, 0, 0, 0, 0] 0).pos =
        0 + (buf_fill 8 [1, 2, 3, 4, 5, 6, 7, 8, 9, 10] true
          [0, 0, 0, 0, 0, 0, 0, 0] 0).count ∧
      (buf_fill 8 [1, 2, 3, 4, 5, 6, 7, 8, 9, 10] true
        [0, 0, 0, 0, 0, 0, 0, 0] 0).buf.take
          (buf_fill 8 [1, 2, 3, 4, 5, 6, 7, 8, 9, 10] true
            [0, 0, 0, 0, 0, 0, 0, 0] 0).pos =
        ([0, 0, 0, 0, 0, 0, 0, 0] : List Nat).take 0 ++
          ([1, 2, 3, 4, 5, 6, 7, 8, 9, 10] : List Nat).take
            (buf_fill 8 [1, 2, 3, 4, 5, 6, 7, 8, 9, 10] true
              [0, 0, 0, 0, 0, 0, 0, 0] 0).count ∧
      (buf_fill 8 [1, 2, 3, 4, 5, 6, 7, 8, 9, 10] true
        [0, 0, 0, 0, 0, 0, 0, 0] 0).buf.length = 8) ∧
    (buf_fill 8 [1, 2, 3, 4, 5, 6, 7, 8, 9, 10] true
      [0, 0, 0, 0, 0, 0, 0, 0] 0).pos = 8 :=
  ⟨rfl, by decide, by decide,
    try_fill_requests_min_appends_delivered 8 _ _ 0 _ rfl (by decide) (by decide),
    by decide⟩

/-- C2: a drain pass that acquires the guard with `pos > 0` removes exactly
the `count` bytes the transport accepted from the front, shifts the
remaining `pos - count` bytes to offset 0 in order, and decrements the
length by exactly `count`; the byte range offered to the transport is the
first `pos` bytes. -/
theorem try_drain_removes_accepted_front (writeAvail : Nat)
    (buf : List Nat) (pos : Nat) (r : DrainResult)
    (hr : r = buf_drain writeAvail true buf pos)
    (h0 : 0 < pos) (hpos : pos ≤ buf.length) :
    r.count = min pos writeAvail ∧
    r.pos = pos - r.count ∧
    r.buf.take r.pos = (buf.take pos).drop r.count ∧
    r.offered = buf.take pos ∧
    r.buf.length = buf.length := by
  subst hr
  obtain ⟨h1, h2, h3, h4, h5⟩ := buf_drain_spec writeAvail buf pos hpos
  refine ⟨h1, by rw [h1]; exact h2, ?_, h5, h4⟩
  rw [h1, h2]
  exact h3

/-- Witness for C2 at the spec's scenario: a full 8-byte buffer, transport
accepting 3 bytes.  The pass removes bytes 0-2, leaves length 5, and the
remaining 5 bytes are bytes 3..7 of the original content. -/
theorem try_drain_removes_accepted_front_witness :
    (buf_drain 3 true [10, 11, 12, 13, 14, 15, 16, 17] 8 =
      buf_drain 3 true [10, 11, 12, 13, 14, 15, 16, 17] 8) ∧
    (0 : Nat) < 8 ∧
    (8 : Nat) ≤ ([10, 11, 12, 13, 14, 15, 16, 17] : List Nat).length ∧
    ((buf_drain 3 true [10, 11, 12, 13, 14, 15, 16, 17] 8).count = min 8 3 ∧
      (buf_drain 3 true [10, 11, 12, 13, 14, 15, 16, 17] 8).pos =
        8 - (buf_drain 3 true [10, 11, 12, 13, 14, 15, 16, 17] 8).count ∧
      (buf_drain 3 true [10, 11, 12, 13, 14, 15, 16, 17] 8).buf.take
          (buf_drain 3 true [10, 11, 12, 13, 14, 15, 16, 17] 8).pos =
        (([10, 11, 12, 13, 14, 15, 16, 17] : List Nat).take 8).drop
          (buf_drain 3 true [10, 11, 12, 13, 14, 15, 16, 17] 8).count ∧
      (buf_drain 3 true [10, 11, 12, 13, 14, 15, 16, 17] 8).offered =
        ([10, 11, 12, 13, 14, 15, 16, 17] : List Nat).take 8 ∧
      (buf_drain 3 true [10, 11, 12, 13, 14, 15, 16, 17] 8).buf.length =
        ([10, 11, 12, 13, 14, 15, 16, 17] : List Nat).length) ∧
    (buf_drain 3 true [10, 11, 12, 13, 14, 15, 16, 17] 8).pos = 5 ∧
    (buf_drain 3 true [10, 11, 12, 13, 14, 15, 16, 17] 8).buf.take 5 =
      [13, 14, 15, 16, 17] :=
  ⟨rfl, by decide, by decide,
    try_drain_removes_accepted_front 3 _ 8 _ rfl (by decide) (by decide),
    by decide, by decide⟩

/-- C4: any sequence of fill/drain passes (arbitrary pending transport
bytes, FIFO space and guard outcomes) preserves `0 ≤ length ≤ capacity`
together with the backing array's size, and the byte region a drain pass
reads and offers to the transport never exceeds the current length. -/
theorem buffer_ops_preserve_invariant (cap : Nat) (ops : List BufOp)
    (st : List Nat × Nat) (h : BufInv cap st) :
    BufInv cap (applyOps cap st ops) ∧
    ∀ writeAvail m,
      ((buf_drain writeAvail m (applyOps cap st ops).1
          (applyOps cap st ops).2).offered).length ≤
        (applyOps cap st ops).2 := by
  have main : ∀ (l : List BufOp) (s : List Nat × Nat),
      BufInv cap s → BufInv cap (applyOps cap s l) := by
    intro l
    induction l with
    | nil => intro s hs; exact hs
    | cons op rest ih =>
      intro s hs
      have hstep : BufInv cap (applyOp cap s op) := by
        cases op with
        | fill incoming m =>
          exact buf_fill_inv cap incoming m s.1 s.2 hs.1 hs.2
        | drain writeAvail m =>
          exact buf_drain_inv cap writeAvail m s.1 s.2 hs.1 hs.2
      exact ih _ hstep
  refine ⟨main ops st h, ?_⟩
  intro writeAvail m
  exact buf_drain_offered_le writeAvail m _ _

/-- Witness for C4: a capacity-8 buffer, starting empty, driven through two
fills (one overflowing), a drain and a guard-blocked fill. -/
theorem buffer_ops_preserve_invariant_witness :
    BufInv 8 ([0, 0, 0, 0, 0, 0, 0, 0], 0) ∧
    (BufInv 8 (applyOps 8 ([0, 0, 0, 0, 0, 0, 0, 0], 0)
        [BufOp.fill [1, 2, 3, 4, 5] true,
         BufOp.fill [6, 7, 8, 9, 10] true,
         BufOp.drain 3 true,
         BufOp.fill [11] false]) ∧
      ∀ writeAvail m,
        ((buf_drain writeAvail m
            (applyOps 8 ([0, 0, 0, 0, 0, 0, 0, 0], 0)
              [BufOp.fill [1, 2, 3, 4, 5] true,
               BufOp.fill [6, 7, 8, 9, 10] true,
               BufOp.drain 3 true,
               BufOp.fill [11] false]).1
            (applyOps 8 ([0, 0, 0, 0, 0, 0, 0, 0], 0)
              [BufOp.fill [1, 2, 3, 4, 5] true,
               BufOp.fill [6, 7, 8, 9, 10] true,
               BufOp.drain 3 true,
               BufOp.fill [11] false]).2).offered).length ≤
          (applyOps 8 ([0, 0, 0, 0, 0, 0, 0, 0], 0)
            [BufOp.fill [1, 2, 3, 4, 5] true,
             BufOp.fill [6, 7, 8, 9, 10] true,
             BufOp.drain 3 true,
             BufOp.fill [11] false]).2) :=
  ⟨by decide,
    buffer_ops_preserve_invariant 8
      [BufOp.fill [1, 2, 3, 4, 5] true, BufOp.fill [6, 7, 8, 9, 10] true,
       BufOp.drain 3 true, BufOp.fill [11] false]
      ([0, 0, 0, 0, 0, 0, 0, 0], 0) (by decide)⟩

/-- C9: with both guard acquisitions succeeding, a drain pass that removes
`k` bytes followed immediately by a fill pass that appends `k` bytes yields
the pre-drain content shifted left by `k` with the new bytes behind it: the
undrained tail `[k..pos)` is neither lost nor duplicated, and the final
length equals the pre-drain length. -/
theorem drain_then_fill_restores (cap writeAvail : Nat)
    (buf incoming : List Nat) (pos : Nat)
    (d : DrainResult) (hd : d = buf_drain writeAvail true buf pos)
    (f : FillResult) (hf : f = buf_fill cap incoming true d.buf d.pos)
    (hk : incoming.length = d.count)
    (hpos : pos ≤ cap) (hbuf : buf.length = cap) :
    f.pos = pos ∧
    f.buf.take pos = (buf.take pos).drop d.count ++ incoming := by
  have hkp : min pos writeAvail ≤ pos := Nat.min_le_left _ _
  obtain ⟨d1, d2, d3, d4, _⟩ :=
    buf_drain_spec writeAvail buf pos (by omega)
  rw [hd] at hk
  rw [d1] at hk
  obtain ⟨f1, f2, f3, f4, f5, _⟩ :=
    buf_fill_spec cap incoming d.buf d.pos
      (by rw [hd, d2]; omega)
      (by rw [hd, d4, hbuf])
  rw [← hd] at d1 d2 d3 d4
  have hreq : (buf_fill cap incoming true d.buf d.pos).requested =
      incoming.length := by
    rw [f1, MIN_eq_min, hk, d2]
    exact Nat.min_eq_left (by omega)
  have hcnt : (buf_fill cap incoming true d.buf d.pos).count =
      incoming.length := by rw [f3, hreq]
  have hfp : (buf_fill cap incoming true d.buf d.pos).pos = pos := by
    rw [f4, hcnt, d2, hk]
    omega
  have htake : incoming.take
      ((buf_fill cap incoming true d.buf d.pos).count) = incoming := by
    rw [hcnt, List.take_length]
  subst hf
  refine ⟨hfp, ?_⟩
  conv_lhs => rw [← hfp]
  rw [f5, htake]
  congr 1
  rw [d1, d2]
  exact d3

/-- Witness for C9: buffer [1..8] (capacity 8) holding 6 valid bytes, drain
with 2 bytes of FIFO space (removes 2), then fill with a 2-byte offer. -/
theorem drain_then_fill_restores_witness :
    (buf_drain 2 true [1, 2, 3, 4, 5, 6, 7, 8] 6 =
      buf_drain 2 true [1, 2, 3, 4, 5, 6, 7, 8] 6) ∧
    (buf_fill 8 [21, 22] true
        (buf_drain 2 true [1, 2, 3, 4, 5, 6, 7, 8] 6).buf
        (buf_drain 2 true [1, 2, 3, 4, 5, 6, 7, 8] 6).pos =
      buf_fill 8 [21, 22] true
        (buf_drain 2 true [1, 2, 3, 4, 5, 6, 7, 8] 6).buf
        (buf_drain 2 true [1, 2, 3, 4, 5, 6, 7, 8] 6).pos) ∧
    ([21, 22] : List Nat).length =
      (buf_drain 2 true [1, 2, 3, 4, 5, 6, 7, 8] 6).count ∧
    (6 : Nat) ≤ 8 ∧
    ([1, 2, 3, 4, 5, 6, 7, 8] : List Nat).length = 8 ∧
    ((buf_fill 8 [21, 22] true
        (buf_drain 2 true [1, 2, 3, 4, 5, 6, 7, 8] 6).buf
        (buf_drain 2 true [1, 2, 3, 4, 5, 6, 7, 8] 6).pos).pos = 6 ∧
      (buf_fill 8 [21, 22] true
          (buf_drain 2 true [1, 2, 3, 4, 5, 6, 7, 8] 6).buf
          (buf_drain 2 true [1, 2, 3, 4, 5, 6, 7, 8] 6).pos).buf.take 6 =
        (([1, 2, 3, 4, 5, 6, 7, 8] : List Nat).take 6).drop
            (buf_drain 2 true [1, 2, 3, 4, 5, 6, 7, 8] 6).count ++
          [21, 22]) ∧
    (buf_fill 8 [21, 22] true
        (buf_drain 2 true [1, 2, 3, 4, 5, 6, 7, 8] 6).buf
        (buf_drain 2 true [1, 2, 3, 4, 5, 6, 7, 8] 6).pos).buf.take 6 =
      [3, 4, 5, 6, 21, 22] :=
  ⟨rfl, rfl, by decide, by decide, by decide,
    drain_then_fill_restores 8 2 [1, 2, 3, 4, 5, 6, 7, 8] [21, 22] 6
      _ rfl _ rfl (by decide) (by decide) (by decide),
    by decide⟩

/-- C7: every `usb_cdc_process` call runs the read side first and the write
side second (the write side acts on the read side's resulting record), and
the transport is flushed on the write side exactly when the transport's
write primitive accepted at least one byte. -/
theorem process_reads_then_writes_flush_iff (incoming : List Nat)
    (writeAvail : Nat) (usbMtxFree uartMtxFree : Bool) (ud : uart_data_t)
    (r : ReadBytesResult) (hr : r = usb_read_bytes incoming usbMtxFree ud)
    (w : WriteBytesResult)
    (hw : w = usb_write_bytes writeAvail uartMtxFree r.ud) :
    usb_cdc_process incoming writeAvail usbMtxFree uartMtxFree ud =
      { ud := w.ud, readRequested := r.requested, readCount := r.count
        writeOffered := w.offered, writeCount := w.count
        flushed := w.flushed } ∧
    (w.flushed = true ↔ 0 < w.count) := by
  subst hr
  subst hw
  refine ⟨rfl, ?_⟩
  simp only [usb_write_bytes, buf_drain]
  split
  · simp only [bne_iff_ne, ne_eq]
    omega
  · simp

/-- Witness for C7: a 3-byte pending host offer, a device→host buffer
holding 2 bytes, transport FIFO space 5, both guards free. -/
theorem process_reads_then_writes_flush_iff_witness :
    (usb_read_bytes [1, 2, 3] true
        { uart_buffer := [7, 8, 0, 0], uart_pos := 2
          usb_buffer := [0, 0, 0, 0], usb_pos := 0 } =
      usb_read_bytes [1, 2, 3] true
        { uart_buffer := [7, 8, 0, 0], uart_pos := 2
          usb_buffer := [0, 0, 0, 0], usb_pos := 0 }) ∧
    (usb_write_bytes 5 true
        (usb_read_bytes [1, 2, 3] true
          { uart_buffer := [7, 8, 0, 0], uart_pos := 2
            usb_buffer := [0, 0, 0, 0], usb_pos := 0 }).ud =
      usb_write_bytes 5 true
        (usb_read_bytes [1, 2, 3] true
          { uart_buffer := [7, 8, 0, 0], uart_pos := 2
            usb_buffer := [0, 0, 0, 0], usb_pos := 0 }).ud) ∧
    (usb_cdc_process [1, 2, 3] 5 true true
        { uart_buffer := [7, 8, 0, 0], uart_pos := 2
          usb_buffer := [0, 0, 0, 0], usb_pos := 0 } =
      { ud := (usb_write_bytes 5 true
          (usb_read_bytes [1, 2, 3] true
            { uart_buffer := [7, 8, 0, 0], uart_pos := 2
              usb_buffer := [0, 0, 0, 0], usb_pos := 0 }).ud).ud
        readRequested := (usb_read_bytes [1, 2, 3] true
          { uart_buffer := [7, 8, 0, 0], uart_pos := 2
            usb_buffer := [0, 0, 0, 0], usb_pos := 0 }).requested
        readCount := (usb_read_bytes [1, 2, 3] true
          { uart_buffer := [7, 8, 0, 0], uart_pos := 2
            usb_buffer := [0, 0, 0, 0], usb_pos := 0 }).count
        writeOffered := (usb_write_bytes 5 true
          (usb_read_bytes [1, 2, 3] true
            { uart_buffer := [7, 8, 0, 0], uart_pos := 2
              usb_buffer := [0, 0, 0, 0], usb_pos := 0 }).ud).offered
        writeCount := (usb_write_bytes 5 true
          (usb_read_bytes [1, 2, 3] true
            { uart_buffer := [7, 8, 0, 0], uart_pos := 2
              usb_buffer := [0, 0, 0, 0], usb_pos := 0 }).ud).count
        flushed := (usb_write_bytes 5 true
          (usb_read_bytes [1, 2, 3] true
            { uart_buffer := [7, 8, 0, 0], uart_pos := 2
              usb_buffer := [0, 0, 0, 0], usb_pos := 0 }).ud).flushed } ∧
      ((usb_write_bytes 5 true
          (usb_read_bytes [1, 2, 3] true
            { uart_buffer := [7, 8, 0, 0], uart_pos := 2
              usb_buffer := [0, 0, 0, 0], usb_pos := 0 }).ud).flushed = true ↔
        0 < (usb_write_bytes 5 true
          (usb_read_bytes [1, 2, 3] true
            { uart_buffer := [7, 8, 0, 0], uart_pos := 2
              usb_buffer := [0, 0, 0, 0], usb_pos := 0 }).ud).count)) :=
  ⟨rfl, rfl,
    process_reads_then_writes_flush_iff [1, 2, 3] 5 true true
      { uart_buffer := [7, 8, 0, 0], uart_pos := 2
        usb_buffer := [0, 0, 0, 0], usb_pos := 0 } _ rfl _ rfl⟩

/-- C3: after `setup`, a completing `sample` call performs, in program
order: drain the ADC FIFO of stale results and stop the converter; program
a one-shot DMA transfer on channel `dma_chan` whose configuration has 8-bit
unit size, fixed (non-incrementing) read address — the ADC FIFO register —
incrementing write address — the destination buffer — and DREQ_ADC pacing,
with transfer count `N_SAMPLES`, started immediately; raise the LED; start
the converter; wait for the DMA channel; lower the LED.  It returns only
with `N_SAMPLES` bytes written to the destination buffer. -/
theorem sample_performs_capture_cycle (claimed : Nat) (g0 : Globals)
    (g : Globals) (hg : g = setup claimed g0) (adcStream buf : List Nat)
    (hs : N_SAMPLES ≤ adcStream.length) (hb : buf.length = N_SAMPLES) :
    g.cfg.transfer_data_size = DmaSize.size8 ∧
    g.cfg.read_increment = false ∧
    g.cfg.write_increment = true ∧
    g.cfg.dreq = DREQ_ADC ∧
    sample g adcStream buf =
      some ([Event.adc_fifo_drain, Event.adc_run false,
             Event.dma_channel_configure g.dma_chan g.cfg Addr.capture_buf
               Addr.adc_fifo N_SAMPLES true,
             Event.gpio_put true, Event.adc_run true,
             Event.dma_wait g.dma_chan, Event.gpio_put false],
            adcStream.take N_SAMPLES) ∧
    (adcStream.take N_SAMPLES).length = N_SAMPLES := by
  have h1 : (adcStream.take N_SAMPLES).length = N_SAMPLES := by
    rw [List.length_take]
    omega
  have h2 : writeAt buf 0 (adcStream.take N_SAMPLES) =
      adcStream.take N_SAMPLES := by
    unfold writeAt
    rw [h1, List.take_zero, List.nil_append, Nat.zero_add,
      List.drop_eq_nil_of_le (by omega), List.append_nil]
  subst hg
  refine ⟨rfl, rfl, rfl, rfl, ?_, h1⟩
  simp only [sample, if_pos hs]
  rw [h2]

/-- Witness for C3: freshly claimed channel 5, a constant ADC stream of 600
conversions, a 500-cell destination buffer. -/
theorem sample_performs_capture_cycle_witness :
    (setup 5 initialGlobals = setup 5 initialGlobals) ∧
    N_SAMPLES ≤ (List.replicate 600 (7 : Nat)).length ∧
    (List.replicate 500 (0 : Nat)).length = N_SAMPLES ∧
    ((setup 5 initialGlobals).cfg.transfer_data_size = DmaSize.size8 ∧
      (setup 5 initialGlobals).cfg.read_increment = false ∧
      (setup 5 initialGlobals).cfg.write_increment = true ∧
      (setup 5 initialGlobals).cfg.dreq = DREQ_ADC ∧
      sample (setup 5 initialGlobals) (List.replicate 600 (7 : Nat))
          (List.replicate 500 (0 : Nat)) =
        some ([Event.adc_fifo_drain, Event.adc_run false,
               Event.dma_channel_configure (setup 5 initialGlobals).dma_chan
                 (setup 5 initialGlobals).cfg Addr.capture_buf
                 Addr.adc_fifo N_SAMPLES true,
               Event.gpio_put true, Event.adc_run true,
               Event.dma_wait (setup 5 initialGlobals).dma_chan,
               Event.gpio_put false],
              (List.replicate 600 (7 : Nat)).take N_SAMPLES) ∧
      ((List.replicate 600 (7 : Nat)).take N_SAMPLES).length = N_SAMPLES) :=
  ⟨rfl, by rw [List.length_replicate]; decide, by rw [List.length_replicate]; decide,
    sample_performs_capture_cycle 5 initialGlobals _ rfl
      (List.replicate 600 (7 : Nat)) (List.replicate 500 (0 : Nat))
      (by rw [List.length_replicate]; decide) (by rw [List.length_replicate]; decide)⟩

/-- C10: the DMA wait in `sample` has no timeout or recovery path: `sample`
returns (`isSome`) exactly when the peripheral can complete the
`N_SAMPLES`-transfer (the ADC stream supplies at least `N_SAMPLES`
conversions), and it never returns (`none`, the caller stalled forever in
`dma_channel_wait_for_finish_blocking`) exactly when it cannot. -/
theorem sample_wait_has_no_timeout (g : Globals) (adcStream buf : List Nat) :
    (sample g adcStream buf = none ↔ adcStream.length < N_SAMPLES) ∧
    ((sample g adcStream buf).isSome ↔ N_SAMPLES ≤ adcStream.length) := by
  unfold sample
  by_cases h : N_SAMPLES ≤ adcStream.length
  · rw [if_pos h]
    simp [h]
  · rw [if_neg h]
    simp [h]
    omega

/-- C6: `setup` leaves the global `dma_chan` unchanged no matter which
channel `dma_claim_unused_channel` returned (the claimed number lands in a
shadowing local); from the zero-initialised globals every subsequent
`sample` therefore programs and waits on DMA channel 0, for every claimed
channel number. -/
theorem setup_shadowed_dma_chan_stays_zero (claimed : Nat) (g : Globals)
    (adcStream buf : List Nat) (hs : N_SAMPLES ≤ adcStream.length) :
    (setup claimed g).dma_chan = g.dma_chan ∧
    (setup claimed initialGlobals).dma_chan = 0 ∧
    sample (setup claimed initialGlobals) adcStream buf =
      some ([Event.adc_fifo_drain, Event.adc_run false,
             Event.dma_channel_configure 0 (setup claimed initialGlobals).cfg
               Addr.capture_buf Addr.adc_fifo N_SAMPLES true,
             Event.gpio_put true, Event.adc_run true,
             Event.dma_wait 0, Event.gpio_put false],
            writeAt buf 0 (adcStream.take N_SAMPLES)) := by
  refine ⟨rfl, rfl, ?_⟩
  simp only [sample, if_pos hs]
  rfl

/-- Witness for C6: channel 7 claimed, a 500-conversion stream, an empty
destination buffer model. -/
theorem setup_shadowed_dma_chan_stays_zero_witness :
    ((9 : Nat) = 9) ∧
    N_SAMPLES ≤ (List.replicate 500 (3 : Nat)).length ∧
    ((setup 7 { cfg := { transfer_data_size := DmaSize.size32
                         read_increment := true, write_increment := true
                         dreq := 5 }
                dma_chan := 9 }).dma_chan = 9 ∧
      (setup 7 initialGlobals).dma_chan = 0 ∧
      sample (setup 7 initialGlobals) (List.replicate 500 (3 : Nat)) [] =
        some ([Event.adc_fifo_drain, Event.adc_run false,
               Event.dma_channel_configure 0 (setup 7 initialGlobals).cfg
                 Addr.capture_buf Addr.adc_fifo N_SAMPLES true,
               Event.gpio_put true, Event.adc_run true,
               Event.dma_wait 0, Event.gpio_put false],
              writeAt [] 0 ((List.replicate 500 (3 : Nat)).take N_SAMPLES))) :=
  ⟨rfl, by rw [List.length_replicate]; decide,
    setup_shadowed_dma_chan_stays_zero 7
      { cfg := { transfer_data_size := DmaSize.size32
                 read_increment := true, write_increment := true, dreq := 5 }
        dma_chan := 9 }
      (List.replicate 500 (3 : Nat)) [] (by rw [List.length_replicate]; decide)⟩

/-- C8: an iteration of `main`'s loop with interface 0 connected performs
exactly one capture cycle, then hands the complete `N_SAMPLES`-byte Sample
Set straight to `tud_cdc_n_write(0, ...)` followed by
`tud_cdc_n_write_flush(0)`; the `UART_DATA` Channel Buffers (and their
guards) are untouched — the returned table is the input table. -/
theorem main_loop_connected_captures_and_publishes (g : Globals)
    (adcStream buf : List Nat) (uartData : List uart_data_t)
    (hs : N_SAMPLES ≤ adcStream.length) (hb : buf.length = N_SAMPLES) :
    main_loop_body true g adcStream buf uartData =
      some ([Event.adc_fifo_drain, Event.adc_run false,
             Event.dma_channel_configure g.dma_chan g.cfg Addr.capture_buf
               Addr.adc_fifo N_SAMPLES true,
             Event.gpio_put true, Event.adc_run true,
             Event.dma_wait g.dma_chan, Event.gpio_put false,
             Event.cdc_write 0 (adcStream.take N_SAMPLES),
             Event.cdc_write_flush 0],
            adcStream.take N_SAMPLES, uartData) ∧
    (adcStream.take N_SAMPLES).length = N_SAMPLES := by
  have h1 : (adcStream.take N_SAMPLES).length = N_SAMPLES := by
    rw [List.length_take]
    omega
  have h2 : writeAt buf 0 (adcStream.take N_SAMPLES) =
      adcStream.take N_SAMPLES := by
    unfold writeAt
    rw [h1, List.take_zero, List.nil_append, Nat.zero_add,
      List.drop_eq_nil_of_le (by omega), List.append_nil]
  refine ⟨?_, h1⟩
  simp only [main_loop_body, sample, if_pos hs, if_true]
  rw [h2]
  rfl

/-- Witness for C8: a 600-conversion stream, a 500-cell sample buffer, and
a one-interface `UART_DATA` table that the capture path must not touch. -/
theorem main_loop_connected_captures_and_publishes_witness :
    N_SAMPLES ≤ (List.replicate 600 (2 : Nat)).length ∧
    (List.replicate 500 (0 : Nat)).length = N_SAMPLES ∧
    (main_loop_body true initialGlobals (List.replicate 600 (2 : Nat))
        (List.replicate 500 (0 : Nat))
        [{ uart_buffer := [5], uart_pos := 1
           usb_buffer := [6], usb_pos := 1 }] =
      some ([Event.adc_fifo_drain, Event.adc_run false,
             Event.dma_channel_configure initialGlobals.dma_chan
               initialGlobals.cfg Addr.capture_buf Addr.adc_fifo
               N_SAMPLES true,
             Event.gpio_put true, Event.adc_run true,
             Event.dma_wait initialGlobals.dma_chan, Event.gpio_put false,
             Event.cdc_write 0 ((List.replicate 600 (2 : Nat)).take N_SAMPLES),
             Event.cdc_write_flush 0],
            (List.replicate 600 (2 : Nat)).take N_SAMPLES,
            [{ uart_buffer := [5], uart_pos := 1
               usb_buffer := [6], usb_pos := 1 }]) ∧
      ((List.replicate 600 (2 : Nat)).take N_SAMPLES).length = N_SAMPLES) :=
  ⟨by rw [List.length_replicate]; decide, by rw [List.length_replicate]; decide,
    main_loop_connected_captures_and_publishes initialGlobals
      (List.replicate 600 (2 : Nat)) (List.replicate 500 (0 : Nat))
      [{ uart_buffer := [5], uart_pos := 1
         usb_buffer := [6], usb_pos := 1 }]
      (by rw [List.length_replicate]; decide) (by rw [List.length_replicate]; decide)⟩

end PicoUsbAdc
